import Mathlib

/-!
Verification of the market-data acquisition / caching / intraday-accumulation
core of the FundMonitor backend, as a shallow embedding in Lean.

The embedding follows `backend/app/services/intraday_store.py` and
`backend/app/services/eastmoney_client.py`.  Wall-clock instants are modelled
as a calendar day number (`Int`) paired with a time of day in microseconds
since midnight (`Nat`), matching Python `datetime` comparison on valid values.
Floating-point change values are carried opaquely as `Rat`; no claim performs
arithmetic on them.  The filesystem is modelled by explicit state passing: the
content of today's intraday artifact is an `Option IntradayData` (`none` when
the file is missing or unreadable), and the file write performed inside the
store's mutex is modelled as always succeeding.
-/

namespace FundMonitor

/-- Microseconds since midnight for a given hour, minute, second. -/
def usecOfHMS (h m s : Nat) : Nat :=
  ((h * 60 + m) * 60 + s) * 1000000

/-- Wall-clock instant: calendar day number plus time of day in microseconds.
Python `datetime` values compare lexicographically on (date, time of day). -/
structure DateTime where
  date : Int
  tod : Nat
  deriving DecidableEq, Repr

/-- Strict ordering on instants, as Python compares `datetime` values. -/
def dtLt (a b : DateTime) : Bool :=
  decide (a.date < b.date) || (decide (a.date = b.date) && decide (a.tod < b.tod))

/-- Non-strict ordering on instants. -/
def dtLe (a b : DateTime) : Bool :=
  decide (a.date < b.date) || (decide (a.date = b.date) && decide (a.tod ≤ b.tod))

/-- MARKET_OPEN = time(9, 30), from intraday_store.py. -/
def MARKET_OPEN : Nat := usecOfHMS 9 30 0

/-- MARKET_CLOSE = time(15, 0), from intraday_store.py. -/
def MARKET_CLOSE : Nat := usecOfHMS 15 0 0

/-- CLEAR_TIME = time(9, 0), the daily clear boundary, from intraday_store.py. -/
def CLEAR_TIME : Nat := usecOfHMS 9 0 0

/-- One intraday sample: `{"time": "HH:MM:SS", "change": float}`. -/
structure Sample where
  time : String
  change : Rat
  deriving DecidableEq, Repr

/-- The per-day intraday artifact
`{"date": ..., "last_update": ..., "funds": {...}}`.  `funds` is a JSON
object, modelled as an association list keyed by fund code; `last_update` is
absent (`none`) in a fresh or cleared artifact. -/
structure IntradayData where
  date : Int
  last_update : Option DateTime
  funds : List (String × List Sample)
  deriving DecidableEq, Repr

/-- Dictionary lookup `funds.get(code, [])`. -/
def lookupFunds : List (String × List Sample) → String → List Sample
  | [], _ => []
  | (c, ss) :: rest, code => if c = code then ss else lookupFunds rest code

/-- Dictionary update performing
`if code not in funds: funds[code] = []` followed by
`funds[code].append(sample)`. -/
def appendSample : List (String × List Sample) → String → Sample → List (String × List Sample)
  | [], code, s => [(code, [s])]
  | (c, ss) :: rest, code, s =>
      if c = code then (c, ss ++ [s]) :: rest
      else (c, ss) :: appendSample rest code s

/-- Embedding of `_should_clear_data`: an artifact with no (or falsy)
`last_update` is never cleared; otherwise it is cleared when its last update
is from a prior calendar day, or when the current instant has reached today's
09:00 clear boundary while the last update precedes that boundary. -/
def should_clear_data (data : IntradayData) (now : DateTime) : Bool :=
  match data.last_update with
  | none => false
  | some lu =>
      if lu.date < now.date then true
      else
        -- clear_datetime = datetime.combine(now.date(), CLEAR_TIME)
        let clearDT : DateTime := ⟨now.date, CLEAR_TIME⟩
        if dtLe clearDT now && dtLt lu clearDT then true else false

/-- The fresh artifact `{"date": today, "funds": {}}` substituted on a missing,
unreadable or stale file. -/
def emptyData (now : DateTime) : IntradayData :=
  ⟨now.date, none, []⟩

/-- Embedding of `_read_intraday_data`: read today's file; if it is missing or
unreadable, or `_should_clear_data` holds, substitute a fresh empty artifact
in memory (the on-disk file is not touched by a read). -/
def read_intraday_data (file : Option IntradayData) (now : DateTime) : IntradayData :=
  match file with
  | none => emptyData now
  | some data => if should_clear_data data now then emptyData now else data

/-- Embedding of `_is_trading_time`: `MARKET_OPEN <= now <= MARKET_CLOSE` on
the current time of day. -/
def is_trading_time (tod : Nat) : Bool :=
  decide (MARKET_OPEN ≤ tod) && decide (tod ≤ MARKET_CLOSE)

/-- Two-digit zero-padded decimal rendering used by `strftime`. -/
def pad2 (n : Nat) : String :=
  if n < 10 then "0" ++ toString n else toString n

/-- Rendering of a time of day as `strftime("%H:%M:%S")`. -/
def fmtHMS (tod : Nat) : String :=
  let s := tod / 1000000
  pad2 (s / 3600) ++ ":" ++ pad2 (s / 60 % 60) ++ ":" ++ pad2 (s % 60)

/-- Embedding of `save_fund_change`: outside the trading window, return
failure leaving the file untouched; otherwise read (with lazy rollover), set
`last_update = now`, append the sample under `code` and persist.  Returns the
boolean result together with the new file state. -/
def save_fund_change (file : Option IntradayData) (now : DateTime) (code : String)
    (change : Rat) (timestamp : Option String) : Bool × Option IntradayData :=
  if !is_trading_time now.tod then (false, file)
  else
    let ts := match timestamp with
      | none => fmtHMS now.tod
      | some t => t
    let data := read_intraday_data file now
    let data := { data with last_update := some now }
    let data := { data with funds := appendSample data.funds code ⟨ts, change⟩ }
    (true, some data)

/-- Embedding of `save_funds_changes_batch`: same trading-window gate; one
shared timestamp; codes whose change is `None` are skipped. -/
def save_funds_changes_batch (file : Option IntradayData) (now : DateTime)
    (changes : List (String × Option Rat)) : Bool × Option IntradayData :=
  if !is_trading_time now.tod then (false, file)
  else
    let ts := fmtHMS now.tod
    let data := read_intraday_data file now
    let data := { data with last_update := some now }
    let funds := changes.foldl
      (fun fs cc =>
        match cc.2 with
        | none => fs
        | some ch => appendSample fs cc.1 ⟨ts, ch⟩)
      data.funds
    (true, some { data with funds := funds })

/-- Embedding of `get_fund_intraday`: read today's data (stale treated as
empty) and return `data.get("funds", {}).get(code, [])`. -/
def get_fund_intraday (file : Option IntradayData) (now : DateTime) (code : String) :
    List Sample :=
  lookupFunds (read_intraday_data file now).funds code

/-- Embedding of `get_funds_intraday_batch`: one lookup per requested code,
results keyed by code in request order. -/
def get_funds_intraday_batch (file : Option IntradayData) (now : DateTime)
    (codes : List String) : List (String × List Sample) :=
  let data := read_intraday_data file now
  codes.map (fun code => (code, lookupFunds data.funds code))

/-- Embedding of `clear_intraday_data`: unconditionally overwrite today's
artifact with `{"date": today, "funds": {}}`. -/
def clear_intraday_data (now : DateTime) : Bool × Option IntradayData :=
  (true, some (emptyData now))

/-- Embedding of the loop body of `cleanup_old_files`: each file stem is
parsed as a date; on parse failure the file is skipped (`except: continue`),
otherwise it is deleted exactly when `(today - file_date).days > keep_days`.
Returns the number of deleted files together with the surviving files. -/
def cleanup_old_files (parseDate : String → Option Int) (today : Int) (keep_days : Int) :
    List String → Nat × List String
  | [] => (0, [])
  | f :: rest =>
      let r := cleanup_old_files parseDate today keep_days rest
      match parseDate f with
      | none => (r.1, f :: r.2)
      | some d => if today - d > keep_days then (r.1 + 1, r.2) else (r.1, f :: r.2)

/-! Embedding of `backend/app/services/eastmoney_client.py`.  Network I/O is
modelled by passing each method the (already parsed or failed) outcome of the
outbound request it would issue, and each method reports how many outbound
requests it issued. -/

/-- Canonical quote record produced by `get_fund_estimate`:
`{code, name, nav, nav_date, estimate_nav, estimate_change, estimate_time}`. -/
structure Quote where
  code : String
  name : String
  nav : Option Rat
  nav_date : String
  estimate_nav : Option Rat
  estimate_change : Option Rat
  estimate_time : String
  deriving DecidableEq, Repr

/-- Freshness test of the per-namespace TTL cache.  Modelled from the spec:
the cache implementation (third-party `cachetools.TTLCache`) is not part of
the repository; per the spec's CacheEntry model an entry is valid iff
`now - insertion <= ttl`. -/
def cache_fresh (entry : Option (Quote × Nat)) (ttl now : Nat) : Option Quote :=
  match entry with
  | none => none
  | some (q, t) => if now - t ≤ ttl then some q else none

/-- Outcome of one `get_fund_estimate` call: the returned value, the cache
entry for this code afterwards, and the number of network requests issued. -/
structure EstimateStep where
  value : Option Quote
  cache : Option (Quote × Nat)
  netCalls : Nat
  deriving DecidableEq, Repr

/-- Embedding of `get_fund_estimate` for one code: on a fresh cache entry the
cached value is returned with no network call; otherwise one network call is
issued, whose successfully parsed result (`some q`) is stored in the cache
with the current timestamp, while any failure (request error, non-200 status,
payload not matching the JSONP pattern) yields `None` and leaves the cache
entry unchanged. -/
def get_fund_estimate (fetch : Option Quote) (cache : Option (Quote × Nat))
    (ttl now : Nat) : EstimateStep :=
  match cache_fresh cache ttl now with
  | some q => ⟨some q, cache, 0⟩
  | none =>
      match fetch with
      | some q => ⟨some q, some (q, now), 1⟩
      | none => ⟨none, cache, 1⟩

/-- Outcome of one per-code fetch inside the batch: a parsed quote dict, an
absent result (`None`), or a raised exception (captured by
`asyncio.gather(..., return_exceptions=True)`). -/
inductive FetchOutcome where
  | ok (q : Quote)
  | absent
  | failed
  deriving DecidableEq, Repr

/-- Embedding of `get_fund_estimates_batch`: gather one outcome per code
(exceptions become values, so the batch itself never raises), then keep
exactly the results that are dicts. -/
def get_fund_estimates_batch (fetch : String → FetchOutcome) (codes : List String) :
    List Quote :=
  (codes.map fetch).filterMap fun r =>
    match r with
    | .ok q => some q
    | .absent => none
    | .failed => none

/-- Composite-identifier construction from `get_stock_quotes`:
`code.startswith(("6", "5", "9"))` selects the `"1."` prefix (Shanghai),
anything else the `"0."` prefix (Shenzhen). -/
def secid (code : String) : String :=
  if ['6'].isPrefixOf code.data || ['5'].isPrefixOf code.data || ['9'].isPrefixOf code.data
  then "1." ++ code
  else "0." ++ code

/-- One entry of the `data.diff` array of the batch stock-quote response:
`f12` is the code, `f3` the change percent; either may be absent. -/
structure StockItem where
  f12 : Option String
  f3 : Option Rat
  deriving DecidableEq, Repr

/-- Parsed outcome of the batch stock-quote request: a failure (request
raised, or non-200 status), or a parsed JSON body whose `data.diff` array may
be absent. -/
inductive StockResp where
  | failure
  | payload (diff : Option (List StockItem))
  deriving DecidableEq, Repr

/-- Dictionary assignment `result[code] = change` on an association list. -/
def insertQuote : List (String × Rat) → String → Rat → List (String × Rat)
  | [], c, v => [(c, v)]
  | (k, w) :: rest, c, v =>
      if k = c then (k, v) :: rest else (k, w) :: insertQuote rest c v

/-- Embedding of `get_stock_quotes`: an empty code list returns the empty map
with no request issued; otherwise the per-code composite identifiers are
built, one combined request is issued, and each response item carrying a
non-empty code and a present change is entered into the result map. -/
def get_stock_quotes (net : List String → StockResp) (stock_codes : List String) :
    List (String × Rat) × Nat :=
  if stock_codes.isEmpty then ([], 0)
  else
    let secids := stock_codes.map secid
    match net secids with
    | .failure => ([], 1)
    | .payload none => ([], 1)
    | .payload (some diff) =>
        (diff.foldl
          (fun acc it =>
            let code := it.f12.getD ""
            match it.f3 with
            | some ch => if code ≠ "" then insertQuote acc code ch else acc
            | none => acc)
          [], 1)

/-- One record of the NAV-history response list, with defensively parsed
numeric fields. -/
structure NavRecord where
  date : String
  nav : Option Rat
  acc_nav : Option Rat
  change : Option Rat
  deriving DecidableEq, Repr

/-- Result page of `get_fund_nav_history`. -/
structure NavPage where
  total : Int
  page : Int
  per_page : Int
  records : List NavRecord
  deriving DecidableEq, Repr

/-- Parsed JSON body of the NAV-history endpoint. -/
structure HistPayload where
  errCode : Int
  totalCount : Int
  lsjzList : List NavRecord
  deriving DecidableEq, Repr

/-- Outcome of the NAV-history request: the request raised, or an HTTP
response with a status code and a body that parses as JSON (`some`) or not
(`none`). -/
inductive HistResp where
  | netError
  | http (status : Nat) (body : Option HistPayload)
  deriving DecidableEq, Repr

/-- The empty history page `{"total": 0, "page": page, "per_page": per_page,
"records": []}` returned on every failure path. -/
def emptyNavPage (page per_page : Int) : NavPage :=
  ⟨0, page, per_page, []⟩

/-- Embedding of `get_fund_nav_history`: a cached page for the full parameter
tuple is returned as is; otherwise the request outcome is examined, and only
a 200 response with a parsable body carrying `ErrCode == 0` produces a
non-empty page — every other path falls through to the empty page. -/
def get_fund_nav_history (cached : Option NavPage) (resp : HistResp)
    (page per_page : Int) : NavPage :=
  match cached with
  | some p => p
  | none =>
      match resp with
      | .netError => emptyNavPage page per_page
      | .http status body =>
          if status = 200 then
            match body with
            | none => emptyNavPage page per_page
            | some data =>
                if data.errCode = 0 then ⟨data.totalCount, page, per_page, data.lsjzList⟩
                else emptyNavPage page per_page
          else emptyNavPage page per_page

/-- Failure predicate over NAV-history request outcomes, covering the claim's
four failure kinds: network error, non-success status, unparsable payload,
and error code in the payload. -/
def histFailed (resp : HistResp) : Bool :=
  match resp with
  | .netError => true
  | .http status body =>
      if status = 200 then
        match body with
        | none => true
        | some data => decide (data.errCode ≠ 0)
      else true

/-- Substring test on character lists: the first list occurs contiguously in
the second. -/
def containsSubAux (kw : List Char) : List Char → Bool
  | [] => kw.isEmpty
  | c :: rest => kw.isPrefixOf (c :: rest) || containsSubAux kw rest

/-- Python substring containment `kw in name`. -/
def strContains (name kw : String) : Bool :=
  containsSubAux kw.data name.data

/-- The fixed ordered sector keyword table of `get_fund_sector`, copied
verbatim from the source: a sequence of (sector label, keyword list) pairs
scanned top to bottom, more specific labels first. -/
def sector_keywords : List (String × List String) :=
  [ ("光伏", ["光伏", "太阳能"]),
    ("锂电", ["锂电", "锂电池", "动力电池", "电池"]),
    ("储能", ["储能"]),
    ("新能源车", ["新能源车", "新能源汽车", "智能汽车", "智能驾驶", "电动车"]),
    ("新能源", ["新能源", "清洁能源", "绿色能源", "碳中和"]),
    ("半导体", ["半导体", "芯片", "集成电路"]),
    ("人工智能", ["人工智能", "AI", "机器人", "智能制造"]),
    ("云计算", ["云计算", "大数据", "数据中心"]),
    ("软件", ["软件", "计算机", "信息技术"]),
    ("通信", ["通信", "5G", "物联网"]),
    ("互联网", ["互联网", "数字经济", "电子商务"]),
    ("电子", ["电子", "消费电子"]),
    ("科技", ["科技", "科创", "创新"]),
    ("创新药", ["创新药", "生物医药", "生物制药"]),
    ("医疗器械", ["医疗器械", "医疗设备"]),
    ("中药", ["中药", "中医"]),
    ("医疗服务", ["医疗服务", "医疗健康"]),
    ("医药", ["医药", "医疗", "生物", "健康", "养老"]),
    ("白酒", ["白酒", "酒"]),
    ("食品饮料", ["食品", "饮料", "乳业", "调味品"]),
    ("家电", ["家电", "家居"]),
    ("汽车", ["汽车", "整车"]),
    ("零售", ["零售", "商贸", "电商"]),
    ("旅游", ["旅游", "酒店", "餐饮", "免税"]),
    ("品牌消费", ["品牌", "奢侈品", "纺织服装"]),
    ("消费", ["消费", "内需"]),
    ("银行", ["银行"]),
    ("证券", ["证券", "券商", "非银"]),
    ("保险", ["保险"]),
    ("地产", ["地产", "房地产", "基建"]),
    ("金融", ["金融"]),
    ("高端制造", ["高端制造", "先进制造", "装备制造"]),
    ("机械", ["机械", "工程机械"]),
    ("化工", ["化工", "材料", "新材料", "稀土"]),
    ("钢铁", ["钢铁", "有色", "煤炭"]),
    ("制造", ["制造", "工业"]),
    ("航空航天", ["航空", "航天", "商业航天", "卫星"]),
    ("军工装备", ["军工装备", "国防装备"]),
    ("船舶", ["船舶", "海洋", "海工"]),
    ("军工", ["军工", "国防"]),
    ("养殖", ["养殖", "畜牧", "猪", "鸡"]),
    ("种植", ["种植", "种业", "粮食"]),
    ("农业", ["农业", "农产品"]),
    ("煤炭", ["煤炭"]),
    ("石油", ["石油", "油气", "天然气"]),
    ("电力", ["电力", "公用事业", "水电", "火电", "核电"]),
    ("资源", ["资源", "能源"]),
    ("港股", ["港股", "恒生", "H股"]),
    ("美股", ["美股", "纳斯达克", "标普"]),
    ("QDII", ["QDII", "海外", "全球"]),
    ("红利", ["红利", "高股息", "分红"]),
    ("价值", ["价值", "蓝筹", "龙头"]),
    ("成长", ["成长"]),
    ("量化", ["量化"]),
    ("指数", ["指数", "ETF", "LOF"]),
    ("债券", ["债券", "纯债", "信用债", "利率债", "可转债"]),
    ("货币", ["货币", "现金"]) ]

/-- Profile record as far as sector classification consumes it: only the
display name participates (`detail.get("name", "")`; a missing name is the
empty string). -/
structure FundDetail where
  name : String
  deriving DecidableEq, Repr

/-- Top-to-bottom scan of the keyword table: the first pair one of whose
keywords occurs in the name wins; when the scan exhausts the table the
default label is returned. -/
def sectorScan : List (String × List String) → String → String
  | [], _ => "综合"
  | (sector, kws) :: rest, name =>
      if kws.any (fun kw => strContains name kw) then sector
      else sectorScan rest name

/-- Embedding of `get_fund_sector`: with an absent profile the default label
`"综合"` is returned; otherwise the ordered keyword table is scanned against
the profile name. -/
def get_fund_sector (detail : Option FundDetail) : String :=
  match detail with
  | none => "综合"
  | some d => sectorScan sector_keywords d.name

/-- Declarative first-match semantics, stated from the spec's words: the
label of the first table pair any of whose keywords is a substring of the
name. -/
def firstMatch (table : List (String × List String)) (name : String) : Option String :=
  (table.find? (fun p => p.2.any (fun kw => strContains name kw))).map Prod.fst

/-! Helper lemmas shared by several claims. -/

/-- Characterization of the staleness test on an artifact carrying a parsed
`last_update`: it fires exactly when the last update is from a prior calendar
day, or from today strictly before the 09:00 boundary while the current time
has reached that boundary. -/
theorem should_clear_data_iff (d : IntradayData) (lu now : DateTime)
    (h : d.last_update = some lu) :
    should_clear_data d now = true ↔
      (lu.date < now.date ∨
        (lu.date = now.date ∧ lu.tod < CLEAR_TIME ∧ CLEAR_TIME ≤ now.tod)) := by
  unfold should_clear_data
  rw [h]
  simp only [dtLe, dtLt]
  split_ifs with h1 h2 <;> first
  | (simp_all; omega)
  | simp_all

/-- Reads are the identity on a non-stale artifact. -/
theorem read_intraday_data_not_stale (d : IntradayData) (now : DateTime)
    (h : should_clear_data d now = false) :
    read_intraday_data (some d) now = d := by
  simp [read_intraday_data, h]

/-- Reads substitute the fresh empty artifact on a stale one. -/
theorem read_intraday_data_stale (d : IntradayData) (now : DateTime)
    (h : should_clear_data d now = true) :
    read_intraday_data (some d) now = emptyData now := by
  simp [read_intraday_data, h]

/-- C1: a call to save_fund_change (and save_funds_changes_batch) succeeds if
and only if the current wall-clock time of day lies within the inclusive
interval [09:30, 15:00]; a write at 09:29:59 is rejected, at 09:30:00
accepted, at 15:00:00 accepted, at 15:00:01 rejected; and a rejected write
returns failure leaving the persisted intraday artifact unchanged.  (The file
write inside the mutex is modelled as succeeding.) -/
theorem save_respects_trading_window :
    (∀ (file : Option IntradayData) (now : DateTime) (code : String) (change : Rat)
        (ts : Option String),
        ((save_fund_change file now code change ts).1 = true ↔
          (usecOfHMS 9 30 0 ≤ now.tod ∧ now.tod ≤ usecOfHMS 15 0 0)))
  ∧ (∀ (file : Option IntradayData) (now : DateTime)
        (changes : List (String × Option Rat)),
        ((save_funds_changes_batch file now changes).1 = true ↔
          (usecOfHMS 9 30 0 ≤ now.tod ∧ now.tod ≤ usecOfHMS 15 0 0)))
  ∧ (∀ (file : Option IntradayData) (now : DateTime) (code : String) (change : Rat)
        (ts : Option String),
        (save_fund_change file now code change ts).1 = false →
          (save_fund_change file now code change ts).2 = file)
  ∧ (∀ (file : Option IntradayData) (now : DateTime)
        (changes : List (String × Option Rat)),
        (save_funds_changes_batch file now changes).1 = false →
          (save_funds_changes_batch file now changes).2 = file)
  ∧ is_trading_time (usecOfHMS 9 29 59) = false
  ∧ is_trading_time (usecOfHMS 9 30 0) = true
  ∧ is_trading_time (usecOfHMS 15 0 0) = true
  ∧ is_trading_time (usecOfHMS 15 0 1) = false := by
  have hiff : ∀ tod : Nat, is_trading_time tod = true ↔
      (usecOfHMS 9 30 0 ≤ tod ∧ tod ≤ usecOfHMS 15 0 0) := by
    intro tod
    simp [is_trading_time, MARKET_OPEN, MARKET_CLOSE]
  refine ⟨?_, ?_, ?_, ?_, by decide, by decide, by decide, by decide⟩
  · intro file now code change ts
    rw [← hiff now.tod]
    cases h : is_trading_time now.tod <;> simp [save_fund_change, h]
  · intro file now changes
    rw [← hiff now.tod]
    cases h : is_trading_time now.tod <;> simp [save_funds_changes_batch, h]
  · intro file now code change ts hrej
    cases h : is_trading_time now.tod
    · simp [save_fund_change, h]
    · simp [save_fund_change, h] at hrej
  · intro file now changes hrej
    cases h : is_trading_time now.tod
    · simp [save_funds_changes_batch, h]
    · simp [save_funds_changes_batch, h] at hrej

/-- Witness for C1: a write at 08:00:00 is rejected and leaves the artifact
(here a file holding one sample for code 000001) unchanged. -/
theorem save_respects_trading_window_witness :
    (save_fund_change (some ⟨0, none, [("000001", [⟨"07:59:00", 1⟩])]⟩)
        ⟨0, usecOfHMS 8 0 0⟩ "000001" 2 none).2 =
      some ⟨0, none, [("000001", [⟨"07:59:00", 1⟩])]⟩ :=
  save_respects_trading_window.2.2.1
    (some ⟨0, none, [("000001", [⟨"07:59:00", 1⟩])]⟩)
    ⟨0, usecOfHMS 8 0 0⟩ "000001" 2 none (by decide)

/-- C2: an artifact whose last_update is from a prior calendar date, or from
today strictly before the 09:00 boundary while the current time is at or after
09:00, is treated as empty by both read operations, which then return an empty
sample list for every code; a non-stale artifact's stored sample sequences are
returned unchanged.  Reads are pure in the embedding: the on-disk artifact is
not part of their output, matching the in-memory substitution in the source. -/
theorem stale_read_semantics (d : IntradayData) (lu now : DateTime) (code : String)
    (codes : List String) (h : d.last_update = some lu) :
    ((lu.date < now.date ∨
        (lu.date = now.date ∧ lu.tod < CLEAR_TIME ∧ CLEAR_TIME ≤ now.tod)) →
      get_fund_intraday (some d) now code = [] ∧
      get_funds_intraday_batch (some d) now codes = codes.map (fun c => (c, [])))
  ∧ (¬(lu.date < now.date ∨
        (lu.date = now.date ∧ lu.tod < CLEAR_TIME ∧ CLEAR_TIME ≤ now.tod)) →
      get_fund_intraday (some d) now code = lookupFunds d.funds code ∧
      get_funds_intraday_batch (some d) now codes =
        codes.map (fun c => (c, lookupFunds d.funds c))) := by
  constructor
  · intro hstale
    have hc : should_clear_data d now = true := (should_clear_data_iff d lu now h).2 hstale
    have hr := read_intraday_data_stale d now hc
    constructor
    · simp [get_fund_intraday, hr, emptyData, lookupFunds]
    · simp [get_funds_intraday_batch, hr, emptyData, lookupFunds]
  · intro hfresh
    have hc : should_clear_data d now = false := by
      cases hb : should_clear_data d now
      · rfl
      · exact absurd ((should_clear_data_iff d lu now h).1 hb) hfresh
    have hr := read_intraday_data_not_stale d now hc
    constructor
    · simp [get_fund_intraday, hr]
    · simp [get_funds_intraday_batch, hr]

/-- Witness for C2: an artifact last updated today at 08:50 holding one sample
reads as empty at 09:05 (boundary crossed) and reads back its stored sample at
08:55 (boundary not crossed). -/
theorem stale_read_semantics_witness :
    get_fund_intraday
        (some ⟨0, some ⟨0, usecOfHMS 8 50 0⟩, [("000001", [⟨"08:50:00", 1⟩])]⟩)
        ⟨0, usecOfHMS 9 5 0⟩ "000001" = [] ∧
    get_fund_intraday
        (some ⟨0, some ⟨0, usecOfHMS 8 50 0⟩, [("000001", [⟨"08:50:00", 1⟩])]⟩)
        ⟨0, usecOfHMS 8 55 0⟩ "000001" = [⟨"08:50:00", 1⟩] :=
  ⟨((stale_read_semantics ⟨0, some ⟨0, usecOfHMS 8 50 0⟩, [("000001", [⟨"08:50:00", 1⟩])]⟩
      ⟨0, usecOfHMS 8 50 0⟩ ⟨0, usecOfHMS 9 5 0⟩ "000001" [] rfl).1 (by decide)).1,
   ((stale_read_semantics ⟨0, some ⟨0, usecOfHMS 8 50 0⟩, [("000001", [⟨"08:50:00", 1⟩])]⟩
      ⟨0, usecOfHMS 8 50 0⟩ ⟨0, usecOfHMS 8 55 0⟩ "000001" [] rfl).2 (by decide)).1⟩

/-- C10: an artifact with no last_update field is never classified as stale:
should_clear_data returns false on it at every instant, so reads always return
its stored samples; and the artifact written by clear_intraday_data carries no
last_update, hence can itself never trigger a rollover. -/
theorem no_last_update_never_stale (d : IntradayData) (now now2 : DateTime)
    (code : String) (h : d.last_update = none) :
    should_clear_data d now = false ∧
    get_fund_intraday (some d) now code = lookupFunds d.funds code ∧
    (clear_intraday_data now2).2 = some ⟨now2.date, none, []⟩ ∧
    should_clear_data (emptyData now2) now = false := by
  have hc : should_clear_data d now = false := by
    unfold should_clear_data
    rw [h]
  refine ⟨hc, ?_, rfl, rfl⟩
  simp [get_fund_intraday, read_intraday_data_not_stale d now hc]

/-- Witness for C10: a cleared artifact holding a stored sample under code
000001 but no last_update still reads back that sample at 10:00 next day. -/
theorem no_last_update_never_stale_witness :
    should_clear_data ⟨0, none, [("000001", [⟨"09:31:00", 1⟩])]⟩ ⟨1, usecOfHMS 10 0 0⟩ = false ∧
    get_fund_intraday (some ⟨0, none, [("000001", [⟨"09:31:00", 1⟩])]⟩)
        ⟨1, usecOfHMS 10 0 0⟩ "000001" = [⟨"09:31:00", 1⟩] := by
  have h := no_last_update_never_stale ⟨0, none, [("000001", [⟨"09:31:00", 1⟩])]⟩
    ⟨1, usecOfHMS 10 0 0⟩ ⟨1, usecOfHMS 10 0 0⟩ "000001" rfl
  exact ⟨h.1, by rw [h.2.1]; decide⟩

/-- Deletion predicate of the retention sweep, stated from the claim: a file
is swept exactly when its name parses as a date strictly more than keep_days
days before today. -/
def fileStale (parseDate : String → Option Int) (today keep_days : Int) (f : String) : Bool :=
  match parseDate f with
  | some d => decide (today - d > keep_days)
  | none => false

/-- C8: the retention sweep keeps exactly the files that are not fileStale
(in particular every unparsable filename survives, without raising), its
count is the number of fileStale files, and on the concrete instance with
keep_days = 7 a file dated 10 days ago is deleted while one dated 3 days ago
and a malformed name survive. -/
theorem cleanup_old_files_spec :
    (∀ (parseDate : String → Option Int) (today keep_days : Int) (files : List String),
        (cleanup_old_files parseDate today keep_days files).2 =
          files.filter (fun f => !fileStale parseDate today keep_days f) ∧
        (cleanup_old_files parseDate today keep_days files).1 =
          (files.filter (fun f => fileStale parseDate today keep_days f)).length)
  ∧ cleanup_old_files
      (fun s => if s = "2024-01-01" then some 1 else if s = "2024-01-08" then some 8 else none)
      11 7 ["2024-01-01", "2024-01-08", "not-a-date"] = (1, ["2024-01-08", "not-a-date"]) := by
  constructor
  · intro parseDate today keep_days files
    induction files with
    | nil => simp [cleanup_old_files]
    | cons f rest ih =>
        cases hp : parseDate f with
        | none =>
            have hs : fileStale parseDate today keep_days f = false := by
              simp [fileStale, hp]
            simp [cleanup_old_files, hp, List.filter_cons, hs, ih]
        | some d =>
            by_cases hd : today - d > keep_days
            · have hs : fileStale parseDate today keep_days f = true := by
                simp [fileStale, hp, hd]
              simp [cleanup_old_files, hp, hd, List.filter_cons, hs, ih]
            · have hs : fileStale parseDate today keep_days f = false := by
                simp [fileStale, hp]
                omega
              simp [cleanup_old_files, hp, hd, List.filter_cons, hs, ih]
  · decide

/-- C3: the composite identifier built by get_stock_quotes starts with '1'
followed by a dot exactly when the code's first character is one of '6', '5',
'9', and with '0' followed by a dot otherwise, the code itself following in
both cases; in particular "600519" maps to "1.600519", "000858" to
"0.000858" and "510300" to "1.510300". -/
theorem secid_spec :
    (∀ code : String,
        (secid code).data =
          (if code.data.head? = some '6' ∨ code.data.head? = some '5' ∨
              code.data.head? = some '9'
           then '1' else '0') :: '.' :: code.data)
  ∧ secid "600519" = "1.600519"
  ∧ secid "000858" = "0.000858"
  ∧ secid "510300" = "1.510300" := by
  refine ⟨?_, by decide, by decide, by decide⟩
  intro code
  unfold secid
  rcases hc : code.data with _ | ⟨c, cs⟩
  · simp [hc, String.data_append]
  · have hp : ∀ a : Char, [a].isPrefixOf (c :: cs) = (a == c) := by
      intro a
      simp [List.isPrefixOf]
    rw [hp, hp, hp]
    by_cases h6 : c = '6'
    · subst h6
      simp [hc, String.data_append]
    · by_cases h5 : c = '5'
      · subst h5
        simp [hc, String.data_append]
      · by_cases h9 : c = '9'
        · subst h9
          simp [hc, String.data_append]
        · have e6 : ('6' == c) = false := beq_eq_false_iff_ne.2 (Ne.symm h6)
          have e5 : ('5' == c) = false := beq_eq_false_iff_ne.2 (Ne.symm h5)
          have e9 : ('9' == c) = false := beq_eq_false_iff_ne.2 (Ne.symm h9)
          simp [hc, e6, e5, e9, h6, h5, h9, String.data_append]

/-- C9: with an empty input list, get_stock_quotes returns the empty map and
issues no network request. -/
theorem get_stock_quotes_empty :
    ∀ net : List String → StockResp, get_stock_quotes net [] = ([], 0) :=
  fun _ => rfl

/-- Top-to-bottom table scan agrees with the declarative first-match
semantics with default. -/
theorem sectorScan_eq_firstMatch (table : List (String × List String)) (name : String) :
    sectorScan table name = (firstMatch table name).getD "综合" := by
  induction table with
  | nil => rfl
  | cons p rest ih =>
      obtain ⟨sector, kws⟩ := p
      cases hm : kws.any (fun kw => strContains name kw)
      · simpa [sectorScan, firstMatch, List.find?_cons, hm] using ih
      · simp [sectorScan, firstMatch, List.find?_cons, hm]

/-- C4: sector classification scans the fixed ordered keyword table top to
bottom and returns the label of the first pair any of whose keywords occurs
in the profile name, defaulting to "综合" when the profile is absent or no
pair matches; "某半导体芯片ETF" classifies as "半导体", whose pair precedes
both the "科技" pair and the "指数" pair (the one carrying keyword "ETF") in
the table. -/
theorem get_fund_sector_spec :
    (∀ name : String,
        get_fund_sector (some ⟨name⟩) = (firstMatch sector_keywords name).getD "综合")
  ∧ get_fund_sector none = "综合"
  ∧ get_fund_sector (some ⟨"某半导体芯片ETF"⟩) = "半导体"
  ∧ firstMatch sector_keywords "某半导体芯片ETF" = some "半导体"
  ∧ get_fund_sector (some ⟨"XYZ"⟩) = "综合"
  ∧ List.indexOf "半导体" (sector_keywords.map Prod.fst) <
      List.indexOf "科技" (sector_keywords.map Prod.fst)
  ∧ List.indexOf "半导体" (sector_keywords.map Prod.fst) <
      List.indexOf "指数" (sector_keywords.map Prod.fst)
  ∧ ("指数", ["指数", "ETF", "LOF"]) ∈ sector_keywords := by
  refine ⟨?_, rfl, by decide, by decide, by decide, by decide, by decide, by decide⟩
  intro name
  exact sectorScan_eq_firstMatch sector_keywords name

/-- C5: the batch estimate fetch returns exactly the successful per-code
results, in input order, dropping every code whose outcome is absent or an
exception without aborting (the gather converts exceptions to values, so the
batch itself is a total function); for input [A, B, C] where only B fails the
result is exactly A's and C's quotes. -/
theorem batch_estimates_spec :
    (∀ (fetch : String → FetchOutcome) (codes : List String) (q : Quote),
        q ∈ get_fund_estimates_batch fetch codes ↔ ∃ c ∈ codes, fetch c = .ok q)
  ∧ (∀ (fetch : String → FetchOutcome) (qA qC : Quote),
        fetch "A" = .ok qA →
        (fetch "B" = .absent ∨ fetch "B" = .failed) →
        fetch "C" = .ok qC →
        get_fund_estimates_batch fetch ["A", "B", "C"] = [qA, qC] ∧
        (get_fund_estimates_batch fetch ["A", "B", "C"]).length = 2) := by
  constructor
  · intro fetch codes q
    simp only [get_fund_estimates_batch, List.mem_filterMap, List.mem_map]
    constructor
    · rintro ⟨r, ⟨c, hc, rfl⟩, hr⟩
      refine ⟨c, hc, ?_⟩
      cases hfc : fetch c <;> rw [hfc] at hr <;> simp_all
    · rintro ⟨c, hc, hok⟩
      exact ⟨.ok q, ⟨c, hc, hok⟩, rfl⟩
  · intro fetch qA qC hA hB hC
    rcases hB with hB | hB <;>
      constructor <;> simp [get_fund_estimates_batch, hA, hB, hC]

/-- Witness for C5: a concrete three-code batch where code B's fetch raises
returns exactly the two successful quotes. -/
theorem batch_estimates_spec_witness :
    get_fund_estimates_batch
        (fun c =>
          if c = "A" then .ok ⟨"A", "fund A", none, "", none, none, ""⟩
          else if c = "C" then .ok ⟨"C", "fund C", none, "", none, none, ""⟩
          else .failed)
        ["A", "B", "C"] =
      [⟨"A", "fund A", none, "", none, none, ""⟩, ⟨"C", "fund C", none, "", none, none, ""⟩] :=
  (batch_estimates_spec.2
    (fun c =>
      if c = "A" then .ok ⟨"A", "fund A", none, "", none, none, ""⟩
      else if c = "C" then .ok ⟨"C", "fund C", none, "", none, none, ""⟩
      else .failed)
    ⟨"A", "fund A", none, "", none, none, ""⟩
    ⟨"C", "fund C", none, "", none, none, ""⟩
    (by decide) (Or.inr (by decide)) (by decide)).1

/-- Counterexample for C6: two calls for the same code within the TTL
(ttl = 60 seconds, calls at t = 0 and t = 10) issue two underlying network
calls when the first fetch fails, because a failed fetch stores nothing in
the cache; this contradicts the claim's unconditional "at most one network
call". -/
theorem estimate_cache_counterexample :
    (get_fund_estimate none none 60 0).netCalls +
        (get_fund_estimate none (get_fund_estimate none none 60 0).cache 60 10).netCalls = 2
    ∧ ¬ ((get_fund_estimate none none 60 0).netCalls +
        (get_fund_estimate none (get_fund_estimate none none 60 0).cache 60 10).netCalls ≤ 1) := by
  constructor
  · rfl
  · decide

/-- C6 amended: when the first call misses the cache and its underlying fetch
succeeds, the result is cached at the current time, a second call within the
TTL of that insertion issues no network call and returns the cached value,
and a call after the TTL has elapsed misses, issues a new network call and
stores its result with the current timestamp. -/
theorem estimate_cache_amended (q q3 : Quote) (fetch2 : Option Quote)
    (c0 : Option (Quote × Nat)) (ttl t1 t2 t3 : Nat)
    (hmiss : cache_fresh c0 ttl t1 = none)
    (h2 : t2 - t1 ≤ ttl)
    (h3 : t3 - t1 > ttl) :
    (get_fund_estimate (some q) c0 ttl t1).netCalls = 1 ∧
    (get_fund_estimate (some q) c0 ttl t1).value = some q ∧
    (get_fund_estimate (some q) c0 ttl t1).cache = some (q, t1) ∧
    (get_fund_estimate fetch2 (some (q, t1)) ttl t2).netCalls = 0 ∧
    (get_fund_estimate fetch2 (some (q, t1)) ttl t2).value = some q ∧
    (get_fund_estimate (some q3) (some (q, t1)) ttl t3).netCalls = 1 ∧
    (get_fund_estimate (some q3) (some (q, t1)) ttl t3).cache = some (q3, t3) := by
  have hfresh : cache_fresh (some (q, t1)) ttl t2 = some q := by
    simp [cache_fresh, h2]
  have hexp : cache_fresh (some (q, t1)) ttl t3 = none := by
    have : ¬ t3 - t1 ≤ ttl := by omega
    simp [cache_fresh, this]
  refine ⟨?_, ?_, ?_, ?_, ?_, ?_, ?_⟩ <;>
    simp [get_fund_estimate, hmiss, hfresh, hexp]

/-- Witness for C6 amended: a successful fetch at t = 0 with ttl = 60 serves
the call at t = 10 from cache, and the call at t = 100 goes back to the
network. -/
theorem estimate_cache_amended_witness :
    (get_fund_estimate (some ⟨"A", "fund A", none, "", none, none, ""⟩) none 60 0).netCalls = 1 ∧
    (get_fund_estimate none
        (some (⟨"A", "fund A", none, "", none, none, ""⟩, 0)) 60 10).netCalls = 0 ∧
    (get_fund_estimate (some ⟨"A", "fund A", none, "", none, none, ""⟩)
        (some (⟨"A", "fund A", none, "", none, none, ""⟩, 0)) 60 100).netCalls = 1 := by
  have h := estimate_cache_amended
    ⟨"A", "fund A", none, "", none, none, ""⟩
    ⟨"A", "fund A", none, "", none, none, ""⟩
    none none 60 0 10 100 rfl (by decide) (by decide)
  exact ⟨h.1, h.2.2.2.1, h.2.2.2.2.2.1⟩

/-- C7: every failing history fetch — network error, non-200 status,
unparsable payload, or error code in the payload — yields the empty page
echoing the requested page and page size; the embedding is a total function,
so no exception reaches the caller. -/
theorem nav_history_failure_empty (resp : HistResp) (page per_page : Int)
    (h : histFailed resp = true) :
    get_fund_nav_history none resp page per_page = ⟨0, page, per_page, []⟩ := by
  cases resp with
  | netError => rfl
  | http status body =>
      unfold get_fund_nav_history
      by_cases hs : status = 200
      · subst hs
        cases body with
        | none => simp [emptyNavPage]
        | some data =>
            have hne : ¬ data.errCode = 0 := by simpa [histFailed] using h
            simp [hne, emptyNavPage]
      · simp [hs, emptyNavPage]

/-- Witness for C7: a 500 response with unreadable body yields the empty page
for page 1 of size 20. -/
theorem nav_history_failure_empty_witness :
    get_fund_nav_history none (.http 500 none) 1 20 = ⟨0, 1, 20, []⟩ :=
  nav_history_failure_empty (.http 500 none) 1 20 (by decide)

end FundMonitor
